import Mathlib

/-!
Shallow embedding of `src/main.py`: a FastAPI service with one endpoint
`insert_bigquery` that composes a BigQuery destination table id and a GCS
source URI from five environment variables, submits a CSV load job
(skip_leading_rows = 1, WRITE_TRUNCATE), blocks on it, fetches the
destination table's metadata and returns its row count.
-/

namespace CloudBuild

/-- The process environment: a partial map from variable names to values,
as seen by `os.getenv` (which returns `None` for an unset variable). -/
def Env : Type := String → Option String

/-- The five module-level configuration constants of `main.py`
(lines 14-18), each the result of an `os.getenv` call. -/
structure Config where
  GCP_PROJECT_ID : Option String
  BQ_DATASET : Option String
  BQ_TABLE_NAME : Option String
  GCS_BUCKET_NAME : Option String
  GCS_CSV_FILE_PATH : Option String
deriving DecidableEq

/-- Resolution of the configuration from the environment, as done once at
module import time by the five `os.getenv` calls (`main.py` lines 14-18). -/
def load_config (env : Env) : Config :=
  { GCP_PROJECT_ID := env "GCP_PROJECT_ID"
    BQ_DATASET := env "BQ_DATASET"
    BQ_TABLE_NAME := env "BQ_TABLE_NAME"
    GCS_BUCKET_NAME := env "GCS_BUCKET_NAME"
    GCS_CSV_FILE_PATH := env "GCS_CSV_FILE_PATH" }

/-- Python f-string interpolation of a value that may be `None`:
`f"{x}"` renders the literal text `None` when `x` is `None`, and the
string itself otherwise. -/
def pyStr : Option String → String
  | none => "None"
  | some s => s

/-- `table_id = f"{GCP_PROJECT_ID}.{BQ_DATASET}.{BQ_TABLE_NAME}"`
(`main.py` line 22). -/
def table_id (c : Config) : String :=
  pyStr c.GCP_PROJECT_ID ++ "." ++ pyStr c.BQ_DATASET ++ "." ++ pyStr c.BQ_TABLE_NAME

/-- `uri = f"gs://{GCS_BUCKET_NAME}/{GCS_CSV_FILE_PATH}"` (`main.py` line 28). -/
def source_uri (c : Config) : String :=
  "gs://" ++ pyStr c.GCS_BUCKET_NAME ++ "/" ++ pyStr c.GCS_CSV_FILE_PATH

/-- `bigquery.WriteDisposition` values. -/
inductive WriteDisposition
  | WRITE_TRUNCATE
  | WRITE_APPEND
  | WRITE_EMPTY
deriving DecidableEq

/-- `bigquery.SourceFormat` values. -/
inductive SourceFormat
  | CSV
  | NEWLINE_DELIMITED_JSON
  | PARQUET
deriving DecidableEq

/-- `bigquery.LoadJobConfig` restricted to the options `main.py` sets. -/
structure LoadJobConfig where
  write_disposition : WriteDisposition
  source_format : SourceFormat
  skip_leading_rows : Nat
deriving DecidableEq

/-- The job configuration constructed at `main.py` lines 23-27. -/
def the_job_config : LoadJobConfig :=
  { write_disposition := WriteDisposition.WRITE_TRUNCATE
    source_format := SourceFormat.CSV
    skip_leading_rows := 1 }

/-- The slice of BigQuery table metadata the handler reads
(`destination_table.num_rows`, `main.py` line 36). -/
structure Table where
  num_rows : Nat
deriving DecidableEq

/-- Errors raised by the external client; the text is opaque to the handler. -/
def BQError : Type := String

/-- The JSON body returned on success: `{"data": destination_table.num_rows}`. -/
structure Response where
  data : Nat
deriving DecidableEq

/-- Observable calls the handler makes on the external client, in order. -/
inductive BQEvent
  | submitLoad (uri tid : String) (cfg : LoadJobConfig)
  | waitJob
  | fetchTable (tid : String)
deriving DecidableEq

/-- The external BigQuery client boundary. `σ` is the external world's
state (threaded through each call, since calls have side effects) and `J`
is the type of load-job handles. Each operation may raise (`Except.error`),
which the Python code lets propagate. -/
structure BQClient (σ : Type) (J : Type) where
  load_table_from_uri : String → String → LoadJobConfig → σ → Except BQError (J × σ)
  job_result : J → σ → Except BQError σ
  get_table : String → σ → Except BQError (Table × σ)

/-- What one invocation of the endpoint produces: the HTTP outcome (success
body or propagated error), the trace of external calls made, and the
external world's final state. -/
structure RunOutcome (σ : Type) where
  response : Except BQError Response
  trace : List BQEvent
  state : σ

/-- The endpoint `insert_bigquery` (`main.py` lines 20-36): compose
`table_id` and `uri`, submit the load job with `the_job_config`, block on
`load_job.result()`, then `get_table` and answer `{"data": num_rows}`.
An error at any step propagates and aborts the rest. -/
def insert_bigquery {σ J : Type} (cfg : Config) (c : BQClient σ J) (s : σ) :
    RunOutcome σ :=
  let tid := table_id cfg
  let uri := source_uri cfg
  match c.load_table_from_uri uri tid the_job_config s with
  | Except.error e =>
      { response := Except.error e
        trace := [BQEvent.submitLoad uri tid the_job_config]
        state := s }
  | Except.ok (load_job, s1) =>
      match c.job_result load_job s1 with
      | Except.error e =>
          { response := Except.error e
            trace := [BQEvent.submitLoad uri tid the_job_config, BQEvent.waitJob]
            state := s1 }
      | Except.ok s2 =>
          match c.get_table tid s2 with
          | Except.error e =>
              { response := Except.error e
                trace := [BQEvent.submitLoad uri tid the_job_config,
                          BQEvent.waitJob, BQEvent.fetchTable tid]
                state := s2 }
          | Except.ok (destination_table, s3) =>
              { response := Except.ok { data := destination_table.num_rows }
                trace := [BQEvent.submitLoad uri tid the_job_config,
                          BQEvent.waitJob, BQEvent.fetchTable tid]
                state := s3 }

/-- The server process after startup: the configuration captured at import
time (`main.py` lines 8-18). -/
structure Process where
  config : Config

/-- Process start: `load_dotenv()` followed by the five `os.getenv` reads.
Total: startup never fails, whatever the environment holds. -/
def startProcess (env : Env) : Process :=
  { config := load_config env }

/-- Serving one request uses only the configuration captured at startup. -/
def handle_request {σ J : Type} (p : Process) (c : BQClient σ J) (s : σ) :
    RunOutcome σ :=
  insert_bigquery p.config c s

set_option linter.unusedVariables false

/-- Two successive requests against one process. The environment may have
been changed to `envLater` between the requests; the process keeps the
module-level constants read at startup, so `envLater` can only matter if a
request were to re-read it. -/
def serveTwo {σ J : Type} (envStart envLater : Env) (c : BQClient σ J) (s : σ) :
    RunOutcome σ × RunOutcome σ :=
  let p := startProcess envStart
  let r1 := handle_request p c s
  let r2 := handle_request p c r1.state
  (r1, r2)

/-- Split a character list at every occurrence of the separator `c`,
keeping empty segments (the behavior of splitting `a.b` style identifiers). -/
def splitOnChar (c : Char) : List Char → List (List Char)
  | [] => [[]]
  | x :: xs =>
      if x = c then [] :: splitOnChar c xs
      else
        match splitOnChar c xs with
        | [] => [[x]]
        | s :: ss => (x :: s) :: ss

/-- Split a character list at the first occurrence of `c`, if any. -/
def splitFirst (c : Char) : List Char → Option (List Char × List Char)
  | [] => none
  | x :: xs =>
      if x = c then some ([], xs)
      else Option.map (fun p => (x :: p.1, p.2)) (splitFirst c xs)

/-- Modelled from the spec: a BigQuery identifier segment the external
service accepts — non-empty and not the literal `None` (the spec calls the
identifiers produced by a missing configuration value malformed, and no
real project, dataset, table, bucket or object is named by them). -/
def validSegment (s : List Char) : Bool :=
  decide (s ≠ []) && decide (s ≠ "None".data)

/-- Modelled from the spec: a well-formed destination table identifier is
exactly three dot-separated valid segments (`<project>.<dataset>.<table>`). -/
def validTableId (tid : String) : Bool :=
  decide ((splitOnChar '.' tid.data).length = 3) &&
    (splitOnChar '.' tid.data).all validSegment

/-- Modelled from the spec: a well-formed source URI is the scheme `gs://`
followed by a valid bucket segment, a slash, and a valid object path. -/
def validUri (uri : String) : Bool :=
  match uri.data with
  | 'g' :: 's' :: ':' :: '/' :: '/' :: rest =>
      match splitFirst '/' rest with
      | some (b, p) => validSegment b && validSegment p
      | none => false
  | _ => false

/-- The state of the external world (object storage plus warehouse):
how many text lines the object at each `gs://` URI holds (`none` when no
such object exists), and each table's row count (`none` when the table
does not exist). -/
structure Warehouse where
  objectLines : String → Option Nat
  tables : String → Option Nat

/-- A submitted load request, used as the job handle. -/
structure LoadRequest where
  uri : String
  tid : String
  cfg : LoadJobConfig
deriving DecidableEq

/-- Modelled from the spec: the effect of a completed CSV load of a source
with `n` lines under the given options — `skip_leading_rows` leading lines
are dropped and the rest become rows, combined with the existing table
contents according to the write disposition (`WRITE_TRUNCATE` replaces). -/
def applyLoad (old : Option Nat) (n : Nat) (cfg : LoadJobConfig) :
    Except BQError (Option Nat) :=
  let loaded := n - cfg.skip_leading_rows
  match cfg.write_disposition with
  | WriteDisposition.WRITE_TRUNCATE => Except.ok (some loaded)
  | WriteDisposition.WRITE_APPEND => Except.ok (some (old.getD 0 + loaded))
  | WriteDisposition.WRITE_EMPTY =>
      match old with
      | none => Except.ok (some loaded)
      | some _ => Except.error "table exists"

/-- Modelled from the spec (section 6, external collaborators): the
warehouse load API. Submission rejects a malformed destination identifier
or source URI; the blocking wait fails when the source object is absent or
the format is not CSV, and otherwise commits the load; the metadata fetch
reports the row count of an existing table. -/
def specClient : BQClient Warehouse LoadRequest :=
  { load_table_from_uri := fun uri tid cfg w =>
      if validUri uri && validTableId tid then
        Except.ok ({ uri := uri, tid := tid, cfg := cfg }, w)
      else Except.error "invalid load request"
    job_result := fun req w =>
      match w.objectLines req.uri with
      | none => Except.error "source object not found"
      | some n =>
          match req.cfg.source_format with
          | SourceFormat.CSV =>
              match applyLoad (w.tables req.tid) n req.cfg with
              | Except.error e => Except.error e
              | Except.ok rows =>
                  Except.ok { w with
                    tables := fun t => if t = req.tid then rows else w.tables t }
          | _ => Except.error "unsupported source format"
    get_table := fun tid w =>
      match w.tables tid with
      | none => Except.error "table not found"
      | some r => Except.ok ({ num_rows := r }, w) }

/-! ### Facts about the segment splitters -/

theorem splitOnChar_ne_nil (c : Char) (xs : List Char) : splitOnChar c xs ≠ [] := by
  induction xs with
  | nil => simp [splitOnChar]
  | cons x xs ih =>
      by_cases h : x = c
      · simp [splitOnChar, h]
      · simp only [splitOnChar, if_neg h]
        cases hs : splitOnChar c xs with
        | nil => simp
        | cons s ss => simp

theorem splitOnChar_sep_append (c : Char) (a b : List Char) :
    splitOnChar c (a ++ c :: b) = splitOnChar c a ++ splitOnChar c b := by
  induction a with
  | nil => simp [splitOnChar]
  | cons x xs ih =>
      by_cases h : x = c
      · simp [splitOnChar, h, ih]
      · simp only [List.cons_append, splitOnChar, if_neg h]
        cases hs : splitOnChar c xs with
        | nil => exact absurd hs (splitOnChar_ne_nil c xs)
        | cons s ss => simp [ih, hs]

theorem splitOnChar_of_not_mem (c : Char) (a : List Char) (h : c ∉ a) :
    splitOnChar c a = [a] := by
  induction a with
  | nil => rfl
  | cons x xs ih =>
      have hx : x ≠ c := fun hxc => h (hxc ▸ List.mem_cons_self x xs)
      have hxs : c ∉ xs := fun hc => h (List.mem_cons_of_mem x hc)
      simp [splitOnChar, hx, ih hxs]

theorem splitFirst_sep_append (c : Char) (a b : List Char) (h : c ∉ a) :
    splitFirst c (a ++ c :: b) = some (a, b) := by
  induction a with
  | nil => simp [splitFirst]
  | cons x xs ih =>
      have hx : x ≠ c := fun hxc => h (hxc ▸ List.mem_cons_self x xs)
      have hxs : c ∉ xs := fun hc => h (List.mem_cons_of_mem x hc)
      simp [splitFirst, hx, ih hxs]

/-- A dot-separated identifier with an invalid dot-free segment anywhere in
it is rejected, whatever the other parts contain. -/
theorem validTableId_of_bad_segment (x : String) (bs : List Char)
    (hmem : bs ∈ splitOnChar '.' x.data) (hbad : validSegment bs = false) :
    validTableId x = false := by
  unfold validTableId
  have hall : (splitOnChar '.' x.data).all validSegment = false :=
    List.all_eq_false.mpr ⟨bs, hmem, by simp [hbad]⟩
  simp [hall]

theorem dot_data : (".").data = ['.'] := rfl

theorem slash_data : ("/").data = ['/'] := rfl

theorem gs_data : ("gs://").data = ['g', 's', ':', '/', '/'] := rfl

theorem mem_split_head (bs r : List Char) (h : ('.') ∉ bs) :
    bs ∈ splitOnChar '.' (bs ++ '.' :: r) := by
  rw [splitOnChar_sep_append, splitOnChar_of_not_mem '.' bs h]
  simp

theorem mem_split_mid (a bs r : List Char) (h : ('.') ∉ bs) :
    bs ∈ splitOnChar '.' (a ++ '.' :: (bs ++ '.' :: r)) := by
  rw [splitOnChar_sep_append, splitOnChar_sep_append, splitOnChar_of_not_mem '.' bs h]
  simp

theorem mem_split_last (a b bs : List Char) (h : ('.') ∉ bs) :
    bs ∈ splitOnChar '.' (a ++ '.' :: (b ++ '.' :: bs)) := by
  rw [splitOnChar_sep_append, splitOnChar_sep_append, splitOnChar_of_not_mem '.' bs h]
  simp

/-- The raw characters of the composed destination table identifier. -/
theorem table_id_data (c : Config) :
    (table_id c).data =
      (pyStr c.GCP_PROJECT_ID).data ++ '.' ::
        ((pyStr c.BQ_DATASET).data ++ '.' :: (pyStr c.BQ_TABLE_NAME).data) := by
  simp [table_id, String.data_append, dot_data]

/-- The raw characters of the composed source URI. -/
theorem source_uri_data (c : Config) :
    (source_uri c).data =
      'g' :: 's' :: ':' :: '/' :: '/' ::
        ((pyStr c.GCS_BUCKET_NAME).data ++ '/' :: (pyStr c.GCS_CSV_FILE_PATH).data) := by
  simp [source_uri, String.data_append, gs_data, slash_data]

/-- `validUri` on a URI of the composed shape, when the bucket part is
slash-free, checks exactly the bucket and path segments. -/
theorem validUri_eq_of_data (u : String) (b p : List Char)
    (hdata : u.data = 'g' :: 's' :: ':' :: '/' :: '/' :: (b ++ '/' :: p))
    (hb : ('/') ∉ b) :
    validUri u = (validSegment b && validSegment p) := by
  simp [validUri, hdata, splitFirst_sep_append '/' b p hb]

/-- A syntactically rejected load request makes the whole invocation
answer with the client's error. -/
theorem insert_error_of_invalid (cfg : Config) (w : Warehouse)
    (h : (validUri (source_uri cfg) && validTableId (table_id cfg)) = false) :
    (insert_bigquery cfg specClient w).response =
      Except.error "invalid load request" := by
  have h2 : ¬(validUri (source_uri cfg) = true ∧ validTableId (table_id cfg) = true) := by
    rw [← Bool.and_eq_true]
    simp [h]
  simp [insert_bigquery, specClient, h2]

/-- Master case analysis of one invocation: exactly four execution paths,
one per point where the external client can raise, each with its exact
response, call trace and final external state. -/
theorem insert_bigquery_cases {σ J : Type} (cfg : Config) (c : BQClient σ J) (s : σ) :
    (∃ e, c.load_table_from_uri (source_uri cfg) (table_id cfg) the_job_config s =
        Except.error e ∧
      insert_bigquery cfg c s =
        { response := Except.error e
          trace := [BQEvent.submitLoad (source_uri cfg) (table_id cfg) the_job_config]
          state := s }) ∨
    (∃ e j s1, c.load_table_from_uri (source_uri cfg) (table_id cfg) the_job_config s =
        Except.ok (j, s1) ∧
      c.job_result j s1 = Except.error e ∧
      insert_bigquery cfg c s =
        { response := Except.error e
          trace := [BQEvent.submitLoad (source_uri cfg) (table_id cfg) the_job_config,
                    BQEvent.waitJob]
          state := s1 }) ∨
    (∃ e j s1 s2, c.load_table_from_uri (source_uri cfg) (table_id cfg) the_job_config s =
        Except.ok (j, s1) ∧
      c.job_result j s1 = Except.ok s2 ∧
      c.get_table (table_id cfg) s2 = Except.error e ∧
      insert_bigquery cfg c s =
        { response := Except.error e
          trace := [BQEvent.submitLoad (source_uri cfg) (table_id cfg) the_job_config,
                    BQEvent.waitJob, BQEvent.fetchTable (table_id cfg)]
          state := s2 }) ∨
    (∃ j s1 s2 tbl s3, c.load_table_from_uri (source_uri cfg) (table_id cfg) the_job_config s =
        Except.ok (j, s1) ∧
      c.job_result j s1 = Except.ok s2 ∧
      c.get_table (table_id cfg) s2 = Except.ok (tbl, s3) ∧
      insert_bigquery cfg c s =
        { response := Except.ok { data := tbl.num_rows }
          trace := [BQEvent.submitLoad (source_uri cfg) (table_id cfg) the_job_config,
                    BQEvent.waitJob, BQEvent.fetchTable (table_id cfg)]
          state := s3 }) := by
  cases hl : c.load_table_from_uri (source_uri cfg) (table_id cfg) the_job_config s with
  | error e =>
      exact Or.inl ⟨e, rfl, by simp [insert_bigquery, hl]⟩
  | ok pair =>
      obtain ⟨j, s1⟩ := pair
      cases hr : c.job_result j s1 with
      | error e =>
          exact Or.inr (Or.inl ⟨e, j, s1, rfl, hr, by simp [insert_bigquery, hl, hr]⟩)
      | ok s2 =>
          cases hg : c.get_table (table_id cfg) s2 with
          | error e =>
              exact Or.inr (Or.inr (Or.inl
                ⟨e, j, s1, s2, rfl, hr, hg, by simp [insert_bigquery, hl, hr, hg]⟩))
          | ok pr =>
              obtain ⟨tbl, s3⟩ := pr
              exact Or.inr (Or.inr (Or.inr
                ⟨j, s1, s2, tbl, s3, rfl, hr, hg, by simp [insert_bigquery, hl, hr, hg]⟩))

/-- The success path against the spec-modelled warehouse: a well-formed
request whose source object has `n` lines truncate-loads `n - 1` rows
(one header line skipped) and answers that count. -/
theorem insert_ok_of_valid (cfg : Config) (w : Warehouse) (n : Nat)
    (hu : validUri (source_uri cfg) = true)
    (ht : validTableId (table_id cfg) = true)
    (hobj : w.objectLines (source_uri cfg) = some n) :
    insert_bigquery cfg specClient w =
      { response := Except.ok { data := n - 1 }
        trace := [BQEvent.submitLoad (source_uri cfg) (table_id cfg) the_job_config,
                  BQEvent.waitJob, BQEvent.fetchTable (table_id cfg)]
        state := { objectLines := w.objectLines
                   tables := fun t =>
                     if t = table_id cfg then some (n - 1) else w.tables t } } := by
  simp [insert_bigquery, specClient, hu, ht, hobj, applyLoad, the_job_config]

theorem empty_data : ("").data = [] := rfl

theorem none_data : ("None").data = ['N', 'o', 'n', 'e'] := rfl

theorem noneDot_data : ("None.").data = ['N', 'o', 'n', 'e', '.'] := rfl

theorem gsNone_data : ("gs://None/").data = ['g', 's', ':', '/', '/', 'N', 'o', 'n', 'e', '/'] := rfl

/-- The concrete configuration of the spec's worked scenario. -/
def cfg0 : Config :=
  { GCP_PROJECT_ID := some "p"
    BQ_DATASET := some "d"
    BQ_TABLE_NAME := some "t"
    GCS_BUCKET_NAME := some "b"
    GCS_CSV_FILE_PATH := some "file.csv" }

/-- A warehouse whose source object holds one header line and five data
lines, and no table yet. -/
def w6 : Warehouse :=
  { objectLines := fun u => if u = "gs://b/file.csv" then some 6 else none
    tables := fun _ => none }

/-- Does a trace event record a load-job submission? -/
def isSubmit : BQEvent → Bool
  | BQEvent.submitLoad _ _ _ => true
  | _ => false

/-- Claim C1: every invocation submits the destination table identifier
composed by joining project, dataset and table with dots, and the source
URI composed as `gs://` then bucket, a slash and the path; on the concrete
scenario configuration these are `p.d.t` and `gs://b/file.csv`. -/
theorem C1_compose_identifiers {σ J : Type} (cfg : Config) (c : BQClient σ J) (s : σ) :
    (insert_bigquery cfg c s).trace.head? =
      some (BQEvent.submitLoad
        ("gs://" ++ pyStr cfg.GCS_BUCKET_NAME ++ "/" ++ pyStr cfg.GCS_CSV_FILE_PATH)
        (pyStr cfg.GCP_PROJECT_ID ++ "." ++ pyStr cfg.BQ_DATASET ++ "." ++
          pyStr cfg.BQ_TABLE_NAME)
        the_job_config) ∧
    table_id cfg0 = "p.d.t" ∧ source_uri cfg0 = "gs://b/file.csv" := by
  refine ⟨?_, rfl, rfl⟩
  rcases insert_bigquery_cases cfg c s with ⟨e, _, hres⟩ | ⟨e, j, s1, _, _, hres⟩ |
    ⟨e, j, s1, s2, _, _, _, hres⟩ | ⟨j, s1, s2, tbl, s3, _, _, _, hres⟩ <;>
    rw [hres] <;> rfl

/-- Claim C2: every invocation submits exactly one load job, and its
configuration is always CSV format, one leading row skipped, and
truncate (full overwrite) write disposition. -/
theorem C2_single_submission_fixed_options {σ J : Type}
    (cfg : Config) (c : BQClient σ J) (s : σ) :
    (insert_bigquery cfg c s).trace.filter isSubmit =
      [BQEvent.submitLoad (source_uri cfg) (table_id cfg) the_job_config] ∧
    the_job_config.source_format = SourceFormat.CSV ∧
    the_job_config.skip_leading_rows = 1 ∧
    the_job_config.write_disposition = WriteDisposition.WRITE_TRUNCATE := by
  refine ⟨?_, rfl, rfl, rfl⟩
  rcases insert_bigquery_cases cfg c s with ⟨e, _, hres⟩ | ⟨e, j, s1, _, _, hres⟩ |
    ⟨e, j, s1, s2, _, _, _, hres⟩ | ⟨j, s1, s2, tbl, s3, _, _, _, hres⟩ <;>
    rw [hres] <;> rfl

/-- Claim C7: the five configuration values are captured once at process
start; every request served by the process uses that captured
configuration, and any later state of the environment is irrelevant to
the requests served. -/
theorem C7_config_resolved_once {σ J : Type} (envStart : Env) (c : BQClient σ J) (s : σ) :
    (∀ e1 e2 : Env, serveTwo envStart e1 c s = serveTwo envStart e2 c s) ∧
    (∀ eL : Env, serveTwo envStart eL c s =
      (insert_bigquery (load_config envStart) c s,
        insert_bigquery (load_config envStart) c
          (insert_bigquery (load_config envStart) c s).state)) :=
  ⟨fun _ _ => rfl, fun _ => rfl⟩

/-- Claim C9: an unset configuration variable is read as a null value and
is rendered as the literal text `None` inside the composed identifier or
URI, e.g. `None.d.t` and `gs://None/file.csv`, not as an empty segment. -/
theorem C9_missing_var_renders_None (env : Env)
    (hp : env "GCP_PROJECT_ID" = none) (hb : env "GCS_BUCKET_NAME" = none) :
    table_id (load_config env) =
      "None." ++ pyStr (env "BQ_DATASET") ++ "." ++ pyStr (env "BQ_TABLE_NAME") ∧
    source_uri (load_config env) =
      "gs://None/" ++ pyStr (env "GCS_CSV_FILE_PATH") ∧
    table_id { GCP_PROJECT_ID := none, BQ_DATASET := some "d", BQ_TABLE_NAME := some "t",
               GCS_BUCKET_NAME := some "b", GCS_CSV_FILE_PATH := some "file.csv" } =
      "None.d.t" ∧
    source_uri { GCP_PROJECT_ID := some "p", BQ_DATASET := some "d",
                 BQ_TABLE_NAME := some "t", GCS_BUCKET_NAME := none,
                 GCS_CSV_FILE_PATH := some "file.csv" } =
      "gs://None/file.csv" := by
  refine ⟨?_, ?_, rfl, rfl⟩
  · apply String.ext
    rw [table_id_data]
    simp [load_config, hp, pyStr, String.data_append, noneDot_data, none_data, dot_data]
  · apply String.ext
    rw [source_uri_data]
    simp [load_config, hb, pyStr, String.data_append, gsNone_data, none_data, gs_data,
      slash_data]

/-- The everywhere-empty environment, as when no variable is set. -/
def envN : Env := fun _ => none

/-- Witness for C9 at the empty environment. -/
theorem C9_witness :
    table_id (load_config envN) =
      "None." ++ pyStr (envN "BQ_DATASET") ++ "." ++ pyStr (envN "BQ_TABLE_NAME") ∧
    source_uri (load_config envN) =
      "gs://None/" ++ pyStr (envN "GCS_CSV_FILE_PATH") ∧
    table_id { GCP_PROJECT_ID := none, BQ_DATASET := some "d", BQ_TABLE_NAME := some "t",
               GCS_BUCKET_NAME := some "b", GCS_CSV_FILE_PATH := some "file.csv" } =
      "None.d.t" ∧
    source_uri { GCP_PROJECT_ID := some "p", BQ_DATASET := some "d",
                 BQ_TABLE_NAME := some "t", GCS_BUCKET_NAME := none,
                 GCS_CSV_FILE_PATH := some "file.csv" } =
      "gs://None/file.csv" :=
  C9_missing_var_renders_None envN rfl rfl

/-- Claim C3: with a valid configuration and an existing source object of
`n` lines, a successful run answers the number of data rows with the
header line excluded (`n - 1`, which is `0` for an empty source). -/
theorem C3_returns_data_row_count (cfg : Config) (w : Warehouse) (n : Nat)
    (hu : validUri (source_uri cfg) = true)
    (ht : validTableId (table_id cfg) = true)
    (hobj : w.objectLines (source_uri cfg) = some n) :
    (insert_bigquery cfg specClient w).response = Except.ok { data := n - 1 } := by
  rw [insert_ok_of_valid cfg w n hu ht hobj]

/-- Witness for C3 on the worked scenario: one header line plus five data
lines answer `{"data": 5}`. -/
theorem C3_witness :
    (insert_bigquery cfg0 specClient w6).response = Except.ok { data := 5 } :=
  C3_returns_data_row_count cfg0 w6 6 rfl rfl rfl

/-- Claim C6: two successive invocations against the same configuration
and an unchanged source object return the same `data` value. -/
theorem C6_successive_runs_agree (cfg : Config) (w : Warehouse) (n : Nat)
    (hu : validUri (source_uri cfg) = true)
    (ht : validTableId (table_id cfg) = true)
    (hobj : w.objectLines (source_uri cfg) = some n) :
    (insert_bigquery cfg specClient
        (insert_bigquery cfg specClient w).state).response =
      (insert_bigquery cfg specClient w).response := by
  have h1 := insert_ok_of_valid cfg w n hu ht hobj
  rw [h1]
  have h2 := insert_ok_of_valid cfg
    { objectLines := w.objectLines
      tables := fun t => if t = table_id cfg then some (n - 1) else w.tables t }
    n hu ht hobj
  rw [h2]

/-- Witness for C6: both back-to-back runs on the scenario answer 5. -/
theorem C6_witness :
    (insert_bigquery cfg0 specClient
        (insert_bigquery cfg0 specClient w6).state).response =
      (insert_bigquery cfg0 specClient w6).response :=
  C6_successive_runs_agree cfg0 w6 6 rfl rfl rfl

/-- Claim C5: a success response reports exactly the row count the
metadata fetch returned after every external call succeeded, and an error
response carries, unmodified, the error raised by one of the three
external calls — nothing is retried, recovered or fabricated. -/
theorem C5_errors_propagate_unmodified {σ J : Type}
    (cfg : Config) (c : BQClient σ J) (s : σ) :
    (∀ r, (insert_bigquery cfg c s).response = Except.ok r →
      ∃ j s1 s2 tbl s3,
        c.load_table_from_uri (source_uri cfg) (table_id cfg) the_job_config s =
          Except.ok (j, s1) ∧
        c.job_result j s1 = Except.ok s2 ∧
        c.get_table (table_id cfg) s2 = Except.ok (tbl, s3) ∧
        r.data = tbl.num_rows) ∧
    (∀ e, (insert_bigquery cfg c s).response = Except.error e →
      c.load_table_from_uri (source_uri cfg) (table_id cfg) the_job_config s =
        Except.error e ∨
      (∃ j s1, c.load_table_from_uri (source_uri cfg) (table_id cfg) the_job_config s =
          Except.ok (j, s1) ∧
        c.job_result j s1 = Except.error e) ∨
      (∃ j s1 s2, c.load_table_from_uri (source_uri cfg) (table_id cfg) the_job_config s =
          Except.ok (j, s1) ∧
        c.job_result j s1 = Except.ok s2 ∧
        c.get_table (table_id cfg) s2 = Except.error e)) := by
  rcases insert_bigquery_cases cfg c s with ⟨e0, hc, hres⟩ | ⟨e0, j, s1, h1, h2, hres⟩ |
    ⟨e0, j, s1, s2, h1, h2, h3, hres⟩ | ⟨j, s1, s2, tbl, s3, h1, h2, h3, hres⟩
  · constructor
    · intro r hr
      rw [hres] at hr
      exact absurd hr (by simp)
    · intro e he
      rw [hres] at he
      have he2 : (Except.error e0 : Except BQError Response) = Except.error e := he
      injection he2 with h4
      subst h4
      exact Or.inl hc
  · constructor
    · intro r hr
      rw [hres] at hr
      exact absurd hr (by simp)
    · intro e he
      rw [hres] at he
      have he2 : (Except.error e0 : Except BQError Response) = Except.error e := he
      injection he2 with h4
      subst h4
      exact Or.inr (Or.inl ⟨j, s1, h1, h2⟩)
  · constructor
    · intro r hr
      rw [hres] at hr
      exact absurd hr (by simp)
    · intro e he
      rw [hres] at he
      have he2 : (Except.error e0 : Except BQError Response) = Except.error e := he
      injection he2 with h4
      subst h4
      exact Or.inr (Or.inr ⟨j, s1, s2, h1, h2, h3⟩)
  · constructor
    · intro r hr
      rw [hres] at hr
      have hr2 : Except.ok ({ data := tbl.num_rows } : Response) = Except.ok r := hr
      injection hr2 with h4
      exact ⟨j, s1, s2, tbl, s3, h1, h2, h3, by rw [← h4]⟩
    · intro e he
      rw [hres] at he
      exact absurd he (by simp)

/-- A client whose every call raises. -/
def failClient : BQClient Unit Unit :=
  { load_table_from_uri := fun _ _ _ _ => Except.error "boom"
    job_result := fun _ _ => Except.error "boom"
    get_table := fun _ _ => Except.error "boom" }

/-- Witness for C5: a submission failure is answered with that very error. -/
theorem C5_witness :
    failClient.load_table_from_uri (source_uri cfg0) (table_id cfg0) the_job_config () =
      Except.error "boom" ∨
    (∃ j s1, failClient.load_table_from_uri (source_uri cfg0) (table_id cfg0)
        the_job_config () = Except.ok (j, s1) ∧
      failClient.job_result j s1 = Except.error "boom") ∨
    (∃ j s1 s2, failClient.load_table_from_uri (source_uri cfg0) (table_id cfg0)
        the_job_config () = Except.ok (j, s1) ∧
      failClient.job_result j s1 = Except.ok s2 ∧
      failClient.get_table (table_id cfg0) s2 = Except.error "boom") :=
  (C5_errors_propagate_unmodified cfg0 failClient ()).2 "boom" rfl

/-- Claim C8: in every execution the trace is a prefix of
submit-then-wait-then-fetch, so the metadata fetch never happens before
the blocking wait on the job; a success response forces the full ordered
trace. -/
theorem C8_wait_precedes_fetch {σ J : Type} (cfg : Config) (c : BQClient σ J) (s : σ) :
    ((insert_bigquery cfg c s).trace =
        [BQEvent.submitLoad (source_uri cfg) (table_id cfg) the_job_config] ∨
      (insert_bigquery cfg c s).trace =
        [BQEvent.submitLoad (source_uri cfg) (table_id cfg) the_job_config,
          BQEvent.waitJob] ∨
      (insert_bigquery cfg c s).trace =
        [BQEvent.submitLoad (source_uri cfg) (table_id cfg) the_job_config,
          BQEvent.waitJob, BQEvent.fetchTable (table_id cfg)]) ∧
    (∀ r, (insert_bigquery cfg c s).response = Except.ok r →
      (insert_bigquery cfg c s).trace =
        [BQEvent.submitLoad (source_uri cfg) (table_id cfg) the_job_config,
          BQEvent.waitJob, BQEvent.fetchTable (table_id cfg)]) := by
  rcases insert_bigquery_cases cfg c s with ⟨e0, hc, hres⟩ | ⟨e0, j, s1, h1, h2, hres⟩ |
    ⟨e0, j, s1, s2, h1, h2, h3, hres⟩ | ⟨j, s1, s2, tbl, s3, h1, h2, h3, hres⟩
  · refine ⟨Or.inl (by rw [hres]), fun r hr => ?_⟩
    rw [hres] at hr
    exact absurd hr (by simp)
  · refine ⟨Or.inr (Or.inl (by rw [hres])), fun r hr => ?_⟩
    rw [hres] at hr
    exact absurd hr (by simp)
  · exact ⟨Or.inr (Or.inr (by rw [hres])), fun r hr => by rw [hres]⟩
  · exact ⟨Or.inr (Or.inr (by rw [hres])), fun r hr => by rw [hres]⟩

/-- A client whose every call succeeds, answering a five-row table. -/
def okClient : BQClient Unit Unit :=
  { load_table_from_uri := fun _ _ _ s => Except.ok ((), s)
    job_result := fun _ s => Except.ok s
    get_table := fun _ s => Except.ok ({ num_rows := 5 }, s) }

/-- Witness for C8: a successful run has the full ordered trace. -/
theorem C8_witness :
    (insert_bigquery cfg0 okClient ()).trace =
      [BQEvent.submitLoad (source_uri cfg0) (table_id cfg0) the_job_config,
        BQEvent.waitJob, BQEvent.fetchTable (table_id cfg0)] :=
  (C8_wait_precedes_fetch cfg0 okClient ()).2 { data := 5 } rfl

/-- Claim C4: with any one of the five configuration values unset or
empty, the composed identifier or URI is malformed, so the external
service rejects the load and the handler answers with the error; startup
itself (`startProcess`) still succeeds, the failure shows at request time.
For a missing or empty object path, the bucket value is assumed
slash-free (slashes are not legal in bucket names). -/
theorem C4_missing_config_fails_request (env : Env) (w : Warehouse)
    (h : env "GCP_PROJECT_ID" = none ∨ env "GCP_PROJECT_ID" = some "" ∨
      env "BQ_DATASET" = none ∨ env "BQ_DATASET" = some "" ∨
      env "BQ_TABLE_NAME" = none ∨ env "BQ_TABLE_NAME" = some "" ∨
      env "GCS_BUCKET_NAME" = none ∨ env "GCS_BUCKET_NAME" = some "" ∨
      (('/') ∉ (pyStr (env "GCS_BUCKET_NAME")).data ∧
        (env "GCS_CSV_FILE_PATH" = none ∨ env "GCS_CSV_FILE_PATH" = some ""))) :
    startProcess env = { config := load_config env } ∧
    (handle_request (startProcess env) specClient w).response =
      Except.error "invalid load request" := by
  refine ⟨rfl, ?_⟩
  have main : (validUri (source_uri (load_config env)) &&
      validTableId (table_id (load_config env))) = false →
      (handle_request (startProcess env) specClient w).response =
        Except.error "invalid load request" :=
    fun hfalse => insert_error_of_invalid (load_config env) w hfalse
  have hsegNone : validSegment ("None".data) = false := by decide
  have hsegNil : validSegment ([] : List Char) = false := by decide
  rcases h with h1 | h1 | h1 | h1 | h1 | h1 | h1 | h1 | ⟨hb, h1 | h1⟩
  · apply main
    have hbad : validTableId (table_id (load_config env)) = false := by
      apply validTableId_of_bad_segment _ ("None".data)
      · rw [table_id_data]
        simp only [load_config, h1, pyStr]
        exact mem_split_head _ _ (by decide)
      · exact hsegNone
    simp [hbad]
  · apply main
    have hbad : validTableId (table_id (load_config env)) = false := by
      apply validTableId_of_bad_segment _ []
      · rw [table_id_data]
        simp only [load_config, h1, pyStr, empty_data]
        exact mem_split_head [] _ (by decide)
      · exact hsegNil
    simp [hbad]
  · apply main
    have hbad : validTableId (table_id (load_config env)) = false := by
      apply validTableId_of_bad_segment _ ("None".data)
      · rw [table_id_data]
        simp only [load_config, h1, pyStr]
        exact mem_split_mid _ _ _ (by decide)
      · exact hsegNone
    simp [hbad]
  · apply main
    have hbad : validTableId (table_id (load_config env)) = false := by
      apply validTableId_of_bad_segment _ []
      · rw [table_id_data]
        simp only [load_config, h1, pyStr, empty_data]
        exact mem_split_mid _ [] _ (by decide)
      · exact hsegNil
    simp [hbad]
  · apply main
    have hbad : validTableId (table_id (load_config env)) = false := by
      apply validTableId_of_bad_segment _ ("None".data)
      · rw [table_id_data]
        simp only [load_config, h1, pyStr]
        exact mem_split_last _ _ _ (by decide)
      · exact hsegNone
    simp [hbad]
  · apply main
    have hbad : validTableId (table_id (load_config env)) = false := by
      apply validTableId_of_bad_segment _ []
      · rw [table_id_data]
        simp only [load_config, h1, pyStr, empty_data]
        exact mem_split_last _ _ [] (by decide)
      · exact hsegNil
    simp [hbad]
  · apply main
    have hd : (source_uri (load_config env)).data =
        'g' :: 's' :: ':' :: '/' :: '/' ::
          ("None".data ++ '/' :: (pyStr (env "GCS_CSV_FILE_PATH")).data) := by
      rw [source_uri_data]
      simp only [load_config, h1, pyStr]
    have hbad : validUri (source_uri (load_config env)) = false := by
      rw [validUri_eq_of_data _ _ _ hd (by decide)]
      simp [hsegNone]
    simp [hbad]
  · apply main
    have hd : (source_uri (load_config env)).data =
        'g' :: 's' :: ':' :: '/' :: '/' ::
          ([] ++ '/' :: (pyStr (env "GCS_CSV_FILE_PATH")).data) := by
      rw [source_uri_data]
      simp only [load_config, h1, pyStr, empty_data]
    have hbad : validUri (source_uri (load_config env)) = false := by
      rw [validUri_eq_of_data _ _ _ hd (by decide)]
      simp [hsegNil]
    simp [hbad]
  · apply main
    have hd : (source_uri (load_config env)).data =
        'g' :: 's' :: ':' :: '/' :: '/' ::
          ((pyStr (env "GCS_BUCKET_NAME")).data ++ '/' :: "None".data) := by
      rw [source_uri_data]
      simp only [load_config, h1, pyStr]
    have hbad : validUri (source_uri (load_config env)) = false := by
      rw [validUri_eq_of_data _ _ _ hd hb]
      simp [hsegNone]
    simp [hbad]
  · apply main
    have hd : (source_uri (load_config env)).data =
        'g' :: 's' :: ':' :: '/' :: '/' ::
          ((pyStr (env "GCS_BUCKET_NAME")).data ++ '/' :: []) := by
      rw [source_uri_data]
      simp only [load_config, h1, pyStr, empty_data]
    have hbad : validUri (source_uri (load_config env)) = false := by
      rw [validUri_eq_of_data _ _ _ hd hb]
      simp [hsegNil]
    simp [hbad]

/-- A warehouse with no objects and no tables. -/
def wNone : Warehouse :=
  { objectLines := fun _ => none
    tables := fun _ => none }

/-- Witness for C4 at the empty environment. -/
theorem C4_witness :
    startProcess envN = { config := load_config envN } ∧
    (handle_request (startProcess envN) specClient wNone).response =
      Except.error "invalid load request" :=
  C4_missing_config_fails_request envN wNone (Or.inl rfl)

/-- The spec-modelled client with a failing metadata fetch, as under a
network fault after the load job has already committed. -/
def flakyClient : BQClient Warehouse LoadRequest :=
  { specClient with get_table := fun _ _ => Except.error "metadata fetch failed" }

/-- A warehouse whose destination table already holds ten rows and whose
source object holds six lines. -/
def w10 : Warehouse :=
  { objectLines := fun u => if u = "gs://b/file.csv" then some 6 else none
    tables := fun t => if t = "p.d.t" then some 10 else none }

/-- Claim C10: an error response does not imply the destination table is
unchanged — when the wait succeeds and only the metadata fetch raises,
the handler answers an error although the truncate-and-load overwrite has
already replaced the table's ten rows with five. -/
theorem C10_error_despite_overwrite :
    (insert_bigquery cfg0 flakyClient w10).response =
      Except.error "metadata fetch failed" ∧
    BQEvent.waitJob ∈ (insert_bigquery cfg0 flakyClient w10).trace ∧
    (insert_bigquery cfg0 flakyClient w10).state.tables (table_id cfg0) = some 5 ∧
    w10.tables (table_id cfg0) = some 10 := by
  refine ⟨rfl, ?_, rfl, rfl⟩
  have ht : (insert_bigquery cfg0 flakyClient w10).trace =
      [BQEvent.submitLoad (source_uri cfg0) (table_id cfg0) the_job_config,
        BQEvent.waitJob, BQEvent.fetchTable (table_id cfg0)] := rfl
  rw [ht]
  simp

end CloudBuild
